import Mathlib

/-
  Verification development for the `langchain-chatbot` backend.

  Shallow embedding of the retrieval-augmented chat pipeline:
  `backend/rag/chains.py`, `backend/rag/retriever.py`,
  `backend/api/routes_chat.py`, `backend/services/llm_gemini.py`,
  `backend/services/llm_fireworks.py`.

  Python strings are modelled as Lean `String`s; the handful of Python
  string primitives the code uses (`str.lower`, `str.strip`, substring
  containment `in`, `"sep".join`, slicing `[:n]`) are embedded as
  character-list operations.  Python exceptions are modelled by the
  `PyResult` sum type.  The process-global mutable session dictionary is
  modelled as an association list threaded through the handlers.
-/

namespace ChatBot

/-- Python `str.lower()`, character-wise lower-casing. -/
def pyLower (s : String) : String :=
  ⟨s.data.map Char.toLower⟩

/-- Python `str.strip()`: drop leading and trailing whitespace. -/
def pyStrip (s : String) : String :=
  ⟨((s.data.dropWhile Char.isWhitespace).reverse.dropWhile Char.isWhitespace).reverse⟩

/-- Python substring containment `needle in hay`, on character lists. -/
def pyContains (needle : List Char) : List Char → Bool
  | [] => needle.isEmpty
  | c :: rest => needle.isPrefixOf (c :: rest) || pyContains needle rest

/-- A Python exception value (message and traceback). -/
structure PyError where
  msg : String
  trace : String
deriving DecidableEq, Repr

/-- Outcome of a Python call: a value, or a raised exception. -/
inductive PyResult (α : Type) where
  | ok : α → PyResult α
  | exc : PyError → PyResult α
deriving DecidableEq, Repr

/-- A LangChain `Document` as the pipeline consumes it: its text. -/
structure Document where
  page_content : String
deriving DecidableEq, Repr

/-- `backend/rag/chains.py` line 16: the single source of truth for the
refusal text. -/
def SCOPE_MSG : String :=
  "That topic is outside my scope. I can help with MFI Business Document related information."

/-- `backend/rag/chains.py` lines 28-29, `_join_docs`: the Python expression
`"\n\n".join(d.page_content for d in docs)`, i.e. the chunk texts in order
separated by a blank line. -/
def join_docs : List Document → String
  | [] => ""
  | [d] => d.page_content
  | d :: rest => d.page_content ++ "\n\n" ++ join_docs rest

/-- `backend/api/routes_chat.py` lines 34-45: the configured disallowed
terms (a Python set literal, modelled as the list of its elements). -/
def ABUSIVE_WORDS : List String :=
  ["idiot", "stupid", "nonsense", "fool", "shit", "fuck",
   "bastard", "moron", "asshole", "chutiya"]

/-- `backend/api/routes_chat.py` lines 48-50, `contains_abuse`:
`t = text.lower(); return any(bad in t for bad in ABUSIVE_WORDS)`. -/
def contains_abuse (text : String) : Bool :=
  let t := pyLower text
  ABUSIVE_WORDS.any (fun bad => pyContains bad.data t.data)

/-- `pyContains` decides exactly the sublist (substring) relation. -/
theorem pyContains_iff_infix (needle hay : List Char) :
    pyContains needle hay = true ↔ needle <:+: hay := by
  induction hay with
  | nil =>
    simp [pyContains, List.isEmpty_iff]
  | cons c rest ih =>
    simp only [pyContains, Bool.or_eq_true, List.isPrefixOf_iff_prefix, ih,
      List.infix_cons_iff]

/-- A conversation turn (`HumanMessage` / `AIMessage` in the history). -/
inductive Role where
  | user : Role
  | assistant : Role
deriving DecidableEq, Repr

structure Turn where
  role : Role
  content : String
deriving DecidableEq, Repr

/-- The model-ready prompt: `backend/rag/chains.py` lines 35-52, a fixed
system instruction, the history placeholder, and the human message built
from the question and the assembled context. -/
structure Prompt where
  system : String
  history : List Turn
  human : String
deriving DecidableEq, Repr

/-- The system message of `ChatPromptTemplate.from_messages`
(`backend/rag/chains.py` lines 38-44), with `SCOPE_MSG` interpolated. -/
def SYSTEM_INSTRUCTION : String :=
  "You are a helpful assistant for microfinance domain Q&A. " ++
  "Answer strictly and briefly using ONLY the provided CONTEXT. " ++
  "If the question is unrelated to microfinance documents or the CONTEXT " ++
  "is insufficient, respond exactly: \"" ++ SCOPE_MSG ++ "\""

/-- The human message template `"Question: {question}\n\nCONTEXT:\n{context}"`
(`backend/rag/chains.py` lines 47-50) filled in, together with the system
instruction and the history. -/
def buildPrompt (question context : String) (history : List Turn) : Prompt :=
  { system := SYSTEM_INSTRUCTION
    history := history
    human := "Question: " ++ question ++ "\n\nCONTEXT:\n" ++ context }

/-- The chain's output dictionary `{"answer": str}`. -/
structure AnswerDict where
  answer : String
deriving DecidableEq, Repr

/-- `backend/rag/chains.py` lines 21-73, `build_chain`, as a function of the
generation backend `llm` and the retrieval backend `retrieve` (both may
raise): retrieval feeds `_join_docs` (= `join_docs` here) to build the
context; the `RunnableBranch` refuses with `SCOPE_MSG` when
`not context.strip()` (line 68), and otherwise runs
`prompt | llm | StrOutputParser()` and wraps the text as `{"answer": text}`. -/
def build_chain (llm : Prompt → PyResult String)
    (retrieve : String → PyResult (List Document))
    (question : String) (history : List Turn) : PyResult AnswerDict :=
  match retrieve question with
  | .exc e => .exc e
  | .ok docs =>
    let context := join_docs docs
    if pyStrip context = "" then
      .ok { answer := SCOPE_MSG }
    else
      match llm (buildPrompt question context history) with
      | .exc e => .exc e
      | .ok text => .ok { answer := text }

/-- The request body of `POST /api/chat` (`backend/api/routes_chat.py`
lines 22-29, class `Query`): message, optional session id, optional
provider. -/
structure Query where
  message : String
  session_id : Option String
  provider : Option String
deriving DecidableEq, Repr

/-- The process-global dictionary `_histories` (`backend/api/routes_chat.py`
line 70), as an association list from session id to turn sequence. -/
abbrev Store := List (String × List Turn)

/-- The turn sequence a store holds for a key (a missing key reads as the
empty history, matching a fresh `InMemoryChatMessageHistory`). -/
def getHist : Store → String → List Turn
  | [], _ => []
  | (k, ts) :: rest, sid => if k = sid then ts else getHist rest sid

/-- Python `dict.setdefault(key, [])`: return the bucket for `key`,
inserting an empty bucket first when the key is absent. -/
def setdefault : Store → String → List Turn × Store
  | [], sid => ([], [(sid, [])])
  | (k, ts) :: rest, sid =>
    if k = sid then (ts, (k, ts) :: rest)
    else
      let r := setdefault rest sid
      (r.1, (k, ts) :: r.2)

/-- `backend/api/routes_chat.py` lines 73-77, `_get_history`:
`_histories.setdefault(session_id or "default", InMemoryChatMessageHistory())`.
The empty string is the only falsy `str`, so it maps to `"default"`. -/
def _get_history (st : Store) (session_id : String) : List Turn × Store :=
  setdefault st (if session_id = "" then "default" else session_id)

/-- Append turns to a key's bucket (mutating the bucket object that
`setdefault` returned; appends to a missing key create it). -/
def appendTurns : Store → String → List Turn → Store
  | [], sid, new => [(sid, new)]
  | (k, ts) :: rest, sid, new =>
    if k = sid then (k, ts ++ new) :: rest
    else (k, ts) :: appendTurns rest sid new

/-- The `session_id or "default"` of `backend/api/routes_chat.py` line 136
applied to the optional field: `None` and `""` are the falsy cases. -/
def effectiveSid : Option String → String
  | none => "default"
  | some s => if s = "" then "default" else s

/-- A constructed chat model object; `ctorIndex` is its identity (the
running count of constructions at the time it was built). -/
structure ChatModel where
  provider : String
  ctorIndex : Nat
deriving DecidableEq, Repr

/-- Per-process construction state of the two services:
`llm_fireworks.get_llm` carries an `@lru_cache` slot, `llm_gemini.get_llm`
has none, so only a construction counter is relevant for it. -/
structure ProcState where
  geminiCtorCount : Nat
  fireworksCache : Option ChatModel
  fireworksCtorCount : Nat
deriving DecidableEq, Repr

/-- A fresh process: nothing constructed, fireworks cache empty. -/
def initProc : ProcState :=
  { geminiCtorCount := 0, fireworksCache := none, fireworksCtorCount := 0 }

namespace llm_gemini

/-- `backend/services/llm_gemini.py` lines 14-20, `get_llm`: no cache
decorator, so each call builds `Settings()` and a fresh
`ChatGoogleGenerativeAI` object. -/
def get_llm (s : ProcState) : ChatModel × ProcState :=
  ({ provider := "gemini", ctorIndex := s.geminiCtorCount },
   { s with geminiCtorCount := s.geminiCtorCount + 1 })

end llm_gemini

namespace llm_fireworks

/-- `backend/services/llm_fireworks.py` lines 15-24, `get_llm` under
`@lru_cache` on a zero-argument function: the first call constructs a
`ChatFireworks` and caches it, later calls return the cached object. -/
def get_llm (s : ProcState) : ChatModel × ProcState :=
  match s.fireworksCache with
  | some m => (m, s)
  | none =>
    let m : ChatModel := { provider := "fireworks", ctorIndex := s.fireworksCtorCount }
    (m, { s with fireworksCache := some m, fireworksCtorCount := s.fireworksCtorCount + 1 })

end llm_fireworks

/-- The effective provider string of `_pick_llm`
(`backend/api/routes_chat.py` line 96): `(provider or "gemini").lower()`. -/
def prov_name (provider : Option String) : String :=
  pyLower (match provider with
    | none => "gemini"
    | some p => if p = "" then "gemini" else p)

/-- `backend/api/routes_chat.py` lines 91-101, `_pick_llm`: import and call
`llm_fireworks.get_llm` when the effective name is `"fireworks"`, otherwise
`llm_gemini.get_llm`.  There is no error branch for other names. -/
def _pick_llm (provider : Option String) (s : ProcState) : ChatModel × ProcState :=
  if prov_name provider = "fireworks" then llm_fireworks.get_llm s
  else llm_gemini.get_llm s

/-- Modelled from the spec: `RunnableWithMessageHistory` (an external
library class, not part of `src/`) records, after a successful invocation
only, the input message and then the output message into the session's
history object (spec section 4.8 step 4: append a user `Turn` and an
assistant `Turn`, in that order, before returning). -/
def record_turns (st : Store) (key message answer : String) : Store :=
  appendTurns st key [⟨Role.user, message⟩, ⟨Role.assistant, answer⟩]

/-- The fixed abuse-redirect literal of `backend/api/routes_chat.py`
lines 115-120. -/
def ABUSE_MSG : String :=
  "I’m here to help with MFI Business Document queries. " ++
  "I can’t continue when there’s abusive language—please rephrase your question respectfully."

/-- `backend/api/routes_chat.py` lines 104-142, the `POST /api/chat`
handler, parametric in the two generation backends and the retrieval
backend.  Control flow from the source: abuse guard short-circuit (lines
113-120); provider selection (line 123, modelled as choosing which backend
function the chain calls); chain construction and wrapping with message
history (lines 124-133); invocation with `session_id or "default"` (lines
136-137).  The history object for the session is fetched (created if
absent) when the wrapped chain is invoked, and the user and assistant
turns are recorded only on success (see `record_turns`); an exception
from retrieval or generation propagates to the caller. -/
def chat (gem fw : Prompt → PyResult String)
    (retrieve : String → PyResult (List Document))
    (st : Store) (q : Query) : PyResult AnswerDict × Store :=
  if contains_abuse q.message then
    (.ok { answer := ABUSE_MSG }, st)
  else
    let llm := if prov_name q.provider = "fireworks" then fw else gem
    let sid := effectiveSid q.session_id
    let fetched := _get_history st sid
    match build_chain llm retrieve q.message fetched.1 with
    | .exc e => (.exc e, fetched.2)
    | .ok out => (.ok out, record_turns fetched.2 (if sid = "" then "default" else sid) q.message out.answer)

/-- Response shape of `POST /api/chat_debug`: a chunk-preview list, or the
`{"error": ..., "trace": ...}` diagnostic payload. -/
inductive DebugResponse where
  | chunks : List String → DebugResponse
  | failure : (error : String) → (trace : String) → DebugResponse
deriving DecidableEq, Repr

/-- `backend/api/routes_chat.py` lines 54-66, `chat_debug`: run the
retriever on the message and return the first 300 characters of each
chunk (`d.page_content[:300]`); any exception is caught and returned as
`{"error": str(e), "trace": traceback}`.  No abuse check, no session
store access. -/
def chat_debug (retrieve : String → PyResult (List Document))
    (message : String) : DebugResponse :=
  match retrieve message with
  | .ok docs => .chunks (docs.map (fun d => ⟨d.page_content.data.take 300⟩))
  | .exc e => .failure e.msg e.trace

/-- Sequential `POST /api/chat` calls against the shared store. -/
def runChats (gem fw : Prompt → PyResult String)
    (retrieve : String → PyResult (List Document)) :
    Store → List Query → Store
  | st, [] => st
  | st, q :: qs => runChats gem fw retrieve (chat gem fw retrieve st q).2 qs

/-- `setdefault` hands back exactly the history the store holds for the
key (a fresh bucket is empty, as `getHist` already reads a missing key). -/
theorem setdefault_fst (st : Store) (sid : String) :
    (setdefault st sid).1 = getHist st sid := by
  induction st with
  | nil => rfl
  | cons kv rest ih =>
    obtain ⟨k, ts⟩ := kv
    by_cases h : k = sid <;> simp [setdefault, getHist, h, ih]

/-- `setdefault` changes no session's turn sequence. -/
theorem getHist_setdefault (st : Store) (sid sid' : String) :
    getHist (setdefault st sid).2 sid' = getHist st sid' := by
  induction st with
  | nil => by_cases h : sid = sid' <;> simp [setdefault, getHist, h]
  | cons kv rest ih =>
    obtain ⟨k, ts⟩ := kv
    by_cases h : k = sid <;> by_cases h' : k = sid' <;>
      simp_all [setdefault, getHist]

/-- Appending to a key extends that key's turn sequence on the right. -/
theorem getHist_appendTurns_self (st : Store) (sid : String) (new : List Turn) :
    getHist (appendTurns st sid new) sid = getHist st sid ++ new := by
  induction st with
  | nil => simp [appendTurns, getHist]
  | cons kv rest ih =>
    obtain ⟨k, ts⟩ := kv
    by_cases h : k = sid <;> simp [appendTurns, getHist, h, ih]

/-- Appending to one key leaves every other session's turns unchanged. -/
theorem getHist_appendTurns_ne (st : Store) (sid sid' : String)
    (new : List Turn) (h : sid' ≠ sid) :
    getHist (appendTurns st sid new) sid' = getHist st sid' := by
  induction st with
  | nil => simp [appendTurns, getHist, Ne.symm h]
  | cons kv rest ih =>
    obtain ⟨k, ts⟩ := kv
    by_cases hk : k = sid <;> by_cases hk' : k = sid' <;>
      simp_all [appendTurns, getHist]

/-- The effective session id is never the empty string. -/
theorem effectiveSid_ne_empty (sid : Option String) : effectiveSid sid ≠ "" := by
  match sid with
  | none => simp [effectiveSid]
  | some s =>
    by_cases h : s = "" <;> simp [effectiveSid, h]

/-- A concrete generation backend that always answers. -/
def llm0 : Prompt → PyResult String := fun _ => .ok "generated answer"

/-- A concrete retrieval backend that finds nothing. -/
def retrieve0 : String → PyResult (List Document) := fun _ => .ok []

/-- A concrete retrieval backend that returns one chunk. -/
def retrieve1 : String → PyResult (List Document) :=
  fun _ => .ok [{ page_content := "Loan disbursement takes two days." }]

/-- A concrete retrieval backend that raises. -/
def retrieveFail : String → PyResult (List Document) :=
  fun _ => .exc { msg := "connection refused", trace := "Traceback" }

/-- C4: the context assembled by `_join_docs` is NOT empty only for the
empty chunk list — a single retrieved chunk whose text is the empty string
also assembles to the empty context, refuting the claimed equivalence. -/
theorem join_docs_empty_counterexample :
    join_docs [{ page_content := "" }] = "" ∧
    ([({ page_content := "" } : Document)] : List Document) ≠ [] := by
  constructor
  · rfl
  · simp

/-- C4 (amended): the assembled context is empty iff the chunk list is
empty, or is a single chunk whose text is itself the empty string; with
two or more chunks the blank-line separator makes the context non-empty. -/
theorem join_docs_empty_iff (docs : List Document) :
    join_docs docs = "" ↔
      docs = [] ∨ ∃ d, docs = [d] ∧ d.page_content = "" := by
  match docs with
  | [] => simp [join_docs]
  | [d] => simp [join_docs]
  | d1 :: d2 :: rest =>
    constructor
    · intro h
      exfalso
      have hlen := congrArg String.length h
      rw [show join_docs (d1 :: d2 :: rest)
            = d1.page_content ++ "\n\n" ++ join_docs (d2 :: rest) from rfl] at hlen
      rw [String.length_append, String.length_append] at hlen
      have h2 : ("\n\n" : String).length = 2 := rfl
      have h0 : ("" : String).length = 0 := rfl
      omega
    · intro h
      rcases h with h | ⟨d, hd, _⟩ <;> simp_all

/-- C1: when the retriever returns `docs`, `build_chain` answers with the
verbatim `SCOPE_MSG` literal whenever the assembled context strips to the
empty string — for every generation backend and every history — and
otherwise takes the generation path on the built prompt. -/
theorem build_chain_scope_gate (llm llm' : Prompt → PyResult String)
    (retrieve : String → PyResult (List Document))
    (question : String) (history history' : List Turn) (docs : List Document)
    (hr : retrieve question = .ok docs) :
    (pyStrip (join_docs docs) = "" →
      build_chain llm retrieve question history = .ok { answer := SCOPE_MSG } ∧
      build_chain llm' retrieve question history' = .ok { answer := SCOPE_MSG }) ∧
    (pyStrip (join_docs docs) ≠ "" →
      build_chain llm retrieve question history =
        (match llm (buildPrompt question (join_docs docs) history) with
         | .exc e => .exc e
         | .ok text => .ok { answer := text })) := by
  constructor
  · intro h
    constructor <;> simp [build_chain, hr, h]
  · intro h
    simp [build_chain, hr, h]

theorem build_chain_scope_gate_witness :
    build_chain llm0 retrieve0 "What is the weather today?" [] =
      .ok { answer := SCOPE_MSG } :=
  ((build_chain_scope_gate llm0 llm0 retrieve0 "What is the weather today?"
      [] [] [] rfl).1 (by decide)).1

/-- C2: resolving the unregistered provider name `"mistral"` does not
raise; `_pick_llm` falls through its single `if` to the gemini backend
and returns a freshly constructed gemini model. -/
theorem pick_llm_mistral_counterexample :
    _pick_llm (some "mistral") initProc
      = ({ provider := "gemini", ctorIndex := 0 },
         { geminiCtorCount := 1, fireworksCache := none,
           fireworksCtorCount := 0 }) := by
  decide

/-- C2 (amended): every provider name whose effective lower-cased form is
not `"fireworks"` — unknown non-empty names included — resolves to the
gemini (default) backend without any error; an absent or empty provider
name resolves to gemini as well.  Provider resolution takes no session
store, so histories are untouched. -/
theorem pick_llm_defaults (provider : Option String) (s : ProcState)
    (h : prov_name provider ≠ "fireworks") :
    _pick_llm provider s = llm_gemini.get_llm s ∧
    _pick_llm none s = llm_gemini.get_llm s ∧
    _pick_llm (some "") s = llm_gemini.get_llm s := by
  have hnone : prov_name none = "gemini" := by decide
  have hempty : prov_name (some "") = "gemini" := by decide
  refine ⟨by simp [_pick_llm, h], ?_, ?_⟩
  · simp [_pick_llm, hnone]
  · simp [_pick_llm, hempty]

theorem pick_llm_defaults_witness :
    _pick_llm (some "mistral") initProc = llm_gemini.get_llm initProc :=
  (pick_llm_defaults (some "mistral") initProc (by decide)).1

/-- C6: the gemini service is NOT cached — two resolutions from a fresh
process return two distinct model objects and run the constructor twice. -/
theorem gemini_not_cached_counterexample :
    (llm_gemini.get_llm ((llm_gemini.get_llm initProc).2)).1
      ≠ (llm_gemini.get_llm initProc).1 ∧
    ((llm_gemini.get_llm ((llm_gemini.get_llm initProc).2)).2).geminiCtorCount
      = 2 := by
  decide

/-- C6 (amended): the fireworks provider is constructed lazily and cached
(`@lru_cache`): a second resolution returns the first resolution's object
and the construction count grows by at most one across both calls; the
gemini provider has no cache and constructs a distinct object on every
call. -/
theorem provider_caching (s : ProcState) :
    (llm_fireworks.get_llm ((llm_fireworks.get_llm s).2)).1
      = (llm_fireworks.get_llm s).1 ∧
    ((llm_fireworks.get_llm ((llm_fireworks.get_llm s).2)).2).fireworksCtorCount
      ≤ s.fireworksCtorCount + 1 ∧
    (llm_gemini.get_llm ((llm_gemini.get_llm s).2)).1
      ≠ (llm_gemini.get_llm s).1 := by
  obtain ⟨g, fc, fcc⟩ := s
  match fc with
  | some m =>
    refine ⟨rfl, by simp [llm_fireworks.get_llm], ?_⟩
    simp [llm_gemini.get_llm]
  | none =>
    refine ⟨rfl, by simp [llm_fireworks.get_llm], ?_⟩
    simp [llm_gemini.get_llm]

/-- C3: `contains_abuse` is true exactly when some configured disallowed
term is a substring of the lower-cased message; on every flagged message
the `/chat` handler returns the fixed abuse-redirect literal (distinct
from the scope-refusal literal) with the store untouched, and its result
does not depend on the retrieval or generation backends at all (no
retrieval call, no generation call can be observed). -/
theorem contains_abuse_spec (m : String) :
    (contains_abuse m = true ↔
      ∃ bad ∈ ABUSIVE_WORDS, bad.data <:+: (pyLower m).data) ∧
    (∀ (gem fw gem' fw' : Prompt → PyResult String)
       (retrieve retrieve' : String → PyResult (List Document))
       (st : Store) (q : Query),
        q.message = m → contains_abuse m = true →
          chat gem fw retrieve st q = (.ok { answer := ABUSE_MSG }, st) ∧
          chat gem fw retrieve st q = chat gem' fw' retrieve' st q) ∧
    ABUSE_MSG ≠ SCOPE_MSG := by
  refine ⟨?_, ?_, by decide⟩
  · simp only [contains_abuse, List.any_eq_true, pyContains_iff_infix]
  · intro gem fw gem' fw' retrieve retrieve' st q hq hab
    subst hq
    constructor <;> simp [chat, hab]

theorem contains_abuse_spec_witness :
    chat llm0 llm0 retrieve1 [] ⟨"You are an IDIOT", none, none⟩
      = (.ok { answer := ABUSE_MSG }, []) :=
  ((contains_abuse_spec "You are an IDIOT").2.1 llm0 llm0 llm0 llm0
      retrieve1 retrieve1 [] ⟨"You are an IDIOT", none, none⟩ rfl
      (by decide)).1

/-- C8: an abuse-flagged request returns the abuse-redirect message and
leaves the entire session store exactly as it was — no turn is appended
to any session. -/
theorem abuse_blocked_frame (gem fw : Prompt → PyResult String)
    (retrieve : String → PyResult (List Document)) (st : Store) (q : Query)
    (h : contains_abuse q.message = true) :
    chat gem fw retrieve st q = (.ok { answer := ABUSE_MSG }, st) := by
  simp [chat, h]

theorem abuse_blocked_frame_witness :
    chat llm0 llm0 retrieve1 [("s1", [⟨Role.user, "hi"⟩])]
        ⟨"this is nonsense", some "s1", none⟩
      = (.ok { answer := ABUSE_MSG }, [("s1", [⟨Role.user, "hi"⟩])]) :=
  abuse_blocked_frame llm0 llm0 retrieve1 [("s1", [⟨Role.user, "hi"⟩])]
    ⟨"this is nonsense", some "s1", none⟩ (by decide)

/-- C5: when the chain invocation raises (retrieval or generation failure)
for a non-abusive request, `/chat` propagates that exact exception to the
caller and every session's turn sequence is exactly what it was before
the request. -/
theorem chat_failure_atomic (gem fw : Prompt → PyResult String)
    (retrieve : String → PyResult (List Document)) (st : Store) (q : Query)
    (e : PyError)
    (hab : contains_abuse q.message = false)
    (hfail : build_chain (if prov_name q.provider = "fireworks" then fw else gem)
        retrieve q.message (getHist st (effectiveSid q.session_id)) = .exc e) :
    (chat gem fw retrieve st q).1 = .exc e ∧
    ∀ sid', getHist (chat gem fw retrieve st q).2 sid' = getHist st sid' := by
  have hsid := effectiveSid_ne_empty q.session_id
  constructor
  · simp [chat, hab, _get_history, if_neg hsid, setdefault_fst, hfail]
  · intro sid'
    simp [chat, hab, _get_history, if_neg hsid, setdefault_fst, hfail,
      getHist_setdefault]

theorem chat_failure_atomic_witness :
    (chat llm0 llm0 retrieveFail [] ⟨"hello", some "s", none⟩).1
      = .exc { msg := "connection refused", trace := "Traceback" } ∧
    getHist (chat llm0 llm0 retrieveFail [] ⟨"hello", some "s", none⟩).2 "s"
      = getHist ([] : Store) "s" :=
  ⟨(chat_failure_atomic llm0 llm0 retrieveFail [] ⟨"hello", some "s", none⟩
      { msg := "connection refused", trace := "Traceback" }
      (by decide) (by decide)).1,
   (chat_failure_atomic llm0 llm0 retrieveFail [] ⟨"hello", some "s", none⟩
      { msg := "connection refused", trace := "Traceback" }
      (by decide) (by decide)).2 "s"⟩

/-- C10: a request whose `session_id` is the empty string behaves exactly
like one with the field omitted — both are routed to the `"default"`
session bucket, so the two share one conversation history. -/
theorem empty_sid_is_default (gem fw : Prompt → PyResult String)
    (retrieve : String → PyResult (List Document)) (st : Store)
    (m : String) (provider : Option String) :
    chat gem fw retrieve st ⟨m, some "", provider⟩
      = chat gem fw retrieve st ⟨m, none, provider⟩ ∧
    effectiveSid (some "") = "default" ∧
    effectiveSid none = "default" := by
  refine ⟨?_, by decide, by decide⟩
  simp [chat, effectiveSid]

/-- C9: `/chat_debug` never propagates an exception: it returns either a
chunk list whose every preview is at most 300 characters, or the
`{"error", "trace"}` diagnostic payload carrying the caught exception;
the success shape is exactly the 300-character truncation of each
retrieved chunk, whatever the message (no abuse gate, and the handler
takes no session store). -/
theorem chat_debug_total (retrieve : String → PyResult (List Document))
    (m : String) :
    ((∃ ps, chat_debug retrieve m = .chunks ps ∧ ∀ p ∈ ps, p.length ≤ 300) ∨
     (∃ e, retrieve m = .exc e ∧
        chat_debug retrieve m = .failure e.msg e.trace)) ∧
    (∀ docs, retrieve m = .ok docs →
       chat_debug retrieve m
         = .chunks (docs.map (fun d => ⟨d.page_content.data.take 300⟩))) := by
  constructor
  · match h : retrieve m with
    | .ok docs =>
      left
      refine ⟨docs.map (fun d => ⟨d.page_content.data.take 300⟩),
        by simp [chat_debug, h], ?_⟩
      intro p hp
      simp only [List.mem_map] at hp
      obtain ⟨d, _, rfl⟩ := hp
      have hl : (⟨d.page_content.data.take 300⟩ : String).length
          = (d.page_content.data.take 300).length := rfl
      rw [hl, List.length_take]
      exact min_le_left _ _
    | .exc e =>
      right
      exact ⟨e, rfl, by simp [chat_debug, h]⟩
  · intro docs h
    simp [chat_debug, h]

theorem chat_debug_total_witness :
    chat_debug retrieve1 "you idiot, what is the loan process?"
      = .chunks [⟨("Loan disbursement takes two days.").data.take 300⟩] :=
  (chat_debug_total retrieve1 "you idiot, what is the loan process?").2
    [{ page_content := "Loan disbursement takes two days." }] rfl

/-- Turn sequences of the shape user, assistant, user, assistant, ... -/
def alternatingUA : List Turn → Bool
  | [] => true
  | [_] => false
  | u :: a :: rest =>
    (u.role == Role.user) && (a.role == Role.assistant) && alternatingUA rest

/-- The contents of the user turns, in order. -/
def userContents (ts : List Turn) : List String :=
  (ts.filter (fun t => t.role == Role.user)).map Turn.content

/-- A successful non-abusive `/chat` call answers with some `ans` and
appends exactly the pair user-turn/assistant-turn to its session, leaving
every other session's turns unchanged. -/
theorem chat_success_step (gem fw : Prompt → String)
    (retrieve : String → List Document) (st : Store) (q : Query)
    (hab : contains_abuse q.message = false) :
    ∃ ans,
      (chat (fun p => .ok (gem p)) (fun p => .ok (fw p))
          (fun s => .ok (retrieve s)) st q).1 = .ok { answer := ans } ∧
      ∀ sid',
        getHist (chat (fun p => .ok (gem p)) (fun p => .ok (fw p))
            (fun s => .ok (retrieve s)) st q).2 sid'
          = getHist st sid' ++
            (if sid' = effectiveSid q.session_id
             then [⟨Role.user, q.message⟩, ⟨Role.assistant, ans⟩] else []) := by
  have hsid := effectiveSid_ne_empty q.session_id
  set sid := effectiveSid q.session_id with hsiddef
  set llm : Prompt → PyResult String :=
    if prov_name q.provider = "fireworks"
    then (fun p => .ok (fw p)) else (fun p => .ok (gem p)) with hllm
  have hllmok : ∀ p, llm p = .ok ((if prov_name q.provider = "fireworks"
      then fw else gem) p) := by
    intro p
    by_cases h : prov_name q.provider = "fireworks" <;> simp [hllm, h]
  set ctx := join_docs (retrieve q.message) with hctx
  refine ⟨if pyStrip ctx = "" then SCOPE_MSG
          else (if prov_name q.provider = "fireworks" then fw else gem)
            (buildPrompt q.message ctx (getHist st sid)), ?_, ?_⟩
  · by_cases h : pyStrip ctx = "" <;>
      simp [chat, hab, build_chain, _get_history, if_neg hsid, setdefault_fst,
        ← hllm, hllmok, h, ← hctx, ← hsiddef]
  · intro sid'
    by_cases h : pyStrip ctx = "" <;>
      by_cases hs : sid' = sid <;>
        simp [chat, hab, build_chain, _get_history, if_neg hsid,
          setdefault_fst, ← hllm, hllmok, h, ← hctx, ← hsiddef, record_turns,
          hs, getHist_setdefault, getHist_appendTurns_self,
          getHist_appendTurns_ne]

/-- C7: an abuse-blocked request is a successful call (it returns a normal
answer payload) yet appends nothing, so one successful call leaves the
session with 0 turns, not 2·1. -/
theorem history_2n_counterexample :
    (chat llm0 llm0 retrieve1 [] ⟨"Do not be a fool", none, none⟩).1
      = .ok { answer := ABUSE_MSG } ∧
    (getHist (runChats llm0 llm0 retrieve1 []
        [⟨"Do not be a fool", none, none⟩]) "default").length ≠ 2 * 1 := by
  decide

/-- C7 (amended): for N sequential calls of one session that pass the
abuse gate and whose retrieval and generation succeed, the session's turn
sequence is its previous value with exactly 2N new turns appended — user
then assistant, alternating, the user contents being the N messages in
call order (appends only; nothing is removed or edited). -/
theorem session_history_2n (gem fw : Prompt → String)
    (retrieve : String → List Document) (sid : String) (qs : List Query)
    (st : Store)
    (hq : ∀ q ∈ qs,
      contains_abuse q.message = false ∧ effectiveSid q.session_id = sid) :
    ∃ tail,
      getHist (runChats (fun p => .ok (gem p)) (fun p => .ok (fw p))
          (fun s => .ok (retrieve s)) st qs) sid
        = getHist st sid ++ tail ∧
      tail.length = 2 * qs.length ∧
      alternatingUA tail = true ∧
      userContents tail = qs.map Query.message := by
  revert hq
  induction qs generalizing st with
  | nil =>
    intro hq
    exact ⟨[], by simp [runChats], rfl, rfl, rfl⟩
  | cons q rest ih =>
    intro hq
    have hq1 := hq q (by simp)
    obtain ⟨ans, hans, hst⟩ := chat_success_step gem fw retrieve st q hq1.1
    obtain ⟨tail, h1, h2, h3, h4⟩ :=
      ih ((chat (fun p => .ok (gem p)) (fun p => .ok (fw p))
            (fun s => .ok (retrieve s)) st q).2)
        (fun q' h' => hq q' (by simp [h']))
    refine ⟨⟨Role.user, q.message⟩ :: ⟨Role.assistant, ans⟩ :: tail,
      ?_, ?_, ?_, ?_⟩
    · show getHist (runChats _ _ _
        ((chat _ _ _ st q).2) rest) sid = _
      rw [h1, hst sid, if_pos hq1.2.symm]
      simp
    · simp [h2]
      omega
    · simpa [alternatingUA] using h3
    · simpa [userContents] using h4

def q7a : Query :=
  { message := "What is the loan disbursement process?",
    session_id := some "s1", provider := none }

def q7b : Query :=
  { message := "And the interest rate?",
    session_id := some "s1", provider := none }

def pureGem : Prompt → String := fun _ => "Answer from context."

def pureRet : String → List Document :=
  fun _ => [{ page_content := "Loan disbursement takes two days." }]

theorem session_history_2n_witness :
    ∃ tail,
      getHist (runChats (fun p => .ok (pureGem p)) (fun p => .ok (pureGem p))
          (fun s => .ok (pureRet s)) [] [q7a, q7b]) "s1"
        = getHist ([] : Store) "s1" ++ tail ∧
      tail.length = 2 * 2 ∧
      alternatingUA tail = true ∧
      userContents tail
        = ["What is the loan disbursement process?", "And the interest rate?"] :=
  session_history_2n pureGem pureGem pureRet "s1" [q7a, q7b] [] (by decide)

end ChatBot
